import Mathlib

/-!
Verification development for the EMG teaching platform's signal/audio
synthesis core.

The waveform generators of `src/utils/waveformGen.js` are embedded over ℚ.
Every call to the host sine in that file passes an argument that is a
rational multiple of π, so the host math library is abstracted as two
function parameters:

* `msin u` models `Math.sin (Math.PI * u)` — the sine at π times a rational;
* `mexp x` models `Math.Exp.exp x`, i.e. `Math.exp(x)`.

JavaScript `Number` arithmetic is modelled exactly over ℚ (the claims under
study are about algebraic structure and bounds, not float rounding), the
JavaScript remainder operator `%` is modelled by `jsMod` (truncated
division), `Math.floor` by `Int.floor`, and the `RangeError` thrown by a
`Float32Array` constructor given a negative length is modelled by `Option`
(`none` = the constructor threw).

The continuous playback scheduler of `src/utils/audioSynthesis.js`
(`playContinuousPattern`) is embedded as a small-step state machine over an
explicit timer queue, with the host audio availability (whether
`new AudioContext()` succeeds) a boolean parameter and exceptions modelled
by `Except`.
-/

/-- JavaScript remainder `a % b`: `a - b * trunc (a / b)` (truncation toward
zero, so the result carries the sign of the dividend). -/
def jsMod (a b : ℚ) : ℚ :=
  a - b * ((if a / b < 0 then ⌈a / b⌉ else ⌊a / b⌋ : ℤ) : ℚ)

/-- `generateNormalMUAP` from `src/utils/waveformGen.js` (lines 21–42).
The unused `phase` default parameter of the source is dropped. -/
def generateNormalMUAP (msin : ℚ → ℚ) (timeMs : ℚ) : ℚ :=
  let duration : ℚ := 12
  let amplitude : ℚ := 800
  if timeMs < 0 ∨ timeMs > duration then 0
  else
    let t := timeMs / duration
    if t < 0.15 then
      amplitude * 0.2 * msin (t / 0.15)
    else if t < 0.65 then
      let localT := (t - 0.15) / 0.5; -amplitude * msin localT
    else
      let localT := (t - 0.65) / 0.35; amplitude * 0.15 * msin localT

/-- `generateFibrillation` from `src/utils/waveformGen.js` (lines 52–67). -/
def generateFibrillation (msin : ℚ → ℚ) (timeMs : ℚ) : ℚ :=
  let duration : ℚ := 2
  let amplitude : ℚ := 150
  if timeMs < 0 ∨ timeMs > duration then 0
  else
    let t := timeMs / duration
    if t < 0.4 then
      amplitude * msin (t / 0.4)
    else
      -amplitude * 0.7 * msin ((t - 0.4) / 0.6)

/-- `generateFasciculation` from `src/utils/waveformGen.js` (lines 76–79):
it just delegates to `generateNormalMUAP`. -/
def generateFasciculation (msin : ℚ → ℚ) (timeMs : ℚ) : ℚ :=
  generateNormalMUAP msin timeMs

/-- `generateMyotonicDischarge` from `src/utils/waveformGen.js`
(lines 88–117).  The source computes `phase = 2π·freq·timeMs/1000` and takes
`Math.sin phase`; here that is `msin (2 * freq * timeMs / 1000)`. -/
def generateMyotonicDischarge (msin : ℚ → ℚ) (timeMs : ℚ)
    (totalDuration : ℚ := 500) : ℚ :=
  let amplitude : ℚ := 200
  if timeMs < 0 ∨ timeMs > totalDuration then 0
  else
    let progress := timeMs / totalDuration
    let startFreq : ℚ := 150
    let endFreq : ℚ := 20
    let freq := startFreq - (startFreq - endFreq) * progress
    let envelope : ℚ :=
      if progress < 0.3 then progress / 0.3
      else if progress < 0.7 then 1.0
      else (1.0 - progress) / 0.3
    amplitude * envelope * msin (2 * freq * timeMs / 1000)

/-- `generateComplexRepetitiveDischarge` from `src/utils/waveformGen.js`
(lines 126–146).  The source sine calls are `Math.sin(t*π*2)`,
`Math.sin(t*π*3)`, `Math.sin(t*π*4)`, hence `msin (t*2)` etc. -/
def generateComplexRepetitiveDischarge (msin : ℚ → ℚ) (timeMs : ℚ)
    (burstFreq : ℚ := 40) : ℚ :=
  let spikeDuration : ℚ := 15
  let amplitude : ℚ := 300
  let period := 1000 / burstFreq
  let timeInPeriod := jsMod timeMs period
  if timeInPeriod > spikeDuration then 0
  else
    let t := timeInPeriod / spikeDuration
    let value := msin (t * 2) * 0.5 + msin (t * 3) * 0.3 + msin (t * 4) * 0.2
    amplitude * value

/-- `generatePositiveSharpWave` from `src/utils/waveformGen.js`
(lines 155–170). -/
def generatePositiveSharpWave (mexp : ℚ → ℚ) (timeMs : ℚ) : ℚ :=
  let duration : ℚ := 20
  let amplitude : ℚ := 400
  if timeMs < 0 ∨ timeMs > duration then 0
  else
    let t := timeMs / duration
    if t < 0.2 then
      amplitude * (t / 0.2)
    else
      -amplitude * 0.7 * mexp (-(t - 0.2) * 5)

/-- The inner overlay loop of the stochastic branches of
`generateEMGPattern`:
`for (let j = 0; j < eventDur * sampleRate && i + j < numSamples; j++)
   data[i+j] += gen(j / sampleRate);`.
Both loop conditions are downward closed in `j`, so folding over all of
`List.range n` with the conjunction as a guard performs exactly the
iterations of the source loop. -/
def overlayEvent (gen : ℚ → ℚ) (eventDur : ℚ) (sampleRate : ℚ)
    (i n : ℕ) (data : List ℚ) : List ℚ :=
  (List.range n).foldl
    (fun (d : List ℚ) (j : ℕ) =>
      if (j : ℚ) < eventDur * sampleRate ∧ i + j < n then
        d.set (i + j) (d.getD (i + j) 0 + gen ((j : ℚ) / sampleRate))
      else d)
    data

/-- `generateEMGPattern` from `src/utils/waveformGen.js` (lines 179–247).
`rand i` models the value of the `Math.random()` call made at outer loop
index `i` (each stochastic branch calls `Math.random()` exactly once per
outer iteration); the default branch reuses the same stream.
`numSamples = Math.floor(durationMs * sampleRate)`; a negative value makes
`new Float32Array(numSamples)` throw a `RangeError`, modelled by `none`. -/
def generateEMGPattern (rand : ℕ → ℚ) (msin mexp : ℚ → ℚ)
    (patternType : String) (durationMs : ℚ) (sampleRate : ℚ := 10) :
    Option (List ℚ) :=
  let numSamples : ℤ := ⌊durationMs * sampleRate⌋
  if numSamples < 0 then none
  else
    let n : ℕ := numSamples.toNat
    let data : List ℚ := List.replicate n 0
    if patternType = "normal" then
      some ((List.range n).foldl
        (fun d i =>
          if rand i < 0.015 then
            overlayEvent (generateNormalMUAP msin) 12 sampleRate i n d
          else d)
        data)
    else if patternType = "fibrillation" then
      some ((List.range n).foldl
        (fun d i =>
          if rand i < 0.008 then
            overlayEvent (generateFibrillation msin) 2 sampleRate i n d
          else d)
        data)
    else if patternType = "fasciculation" then
      some ((List.range n).foldl
        (fun d i =>
          if rand i < 0.0015 then
            overlayEvent (generateFasciculation msin) 12 sampleRate i n d
          else d)
        data)
    else if patternType = "myotonic" then
      some ((List.range n).map
        (fun (i : ℕ) => generateMyotonicDischarge msin ((i : ℚ) / sampleRate) durationMs))
    else if patternType = "crd" then
      some ((List.range n).map
        (fun (i : ℕ) => generateComplexRepetitiveDischarge msin ((i : ℚ) / sampleRate) 40))
    else
      some ((List.range n).map (fun (i : ℕ) => (rand i - 0.5) * 10))

/-- The five pattern-type strings handled by the `switch` statements of both
`generateEMGPattern` and `playContinuousPattern`. -/
def handledPatternType (patternType : String) : Bool :=
  patternType = "normal" || patternType = "fibrillation" ||
    patternType = "fasciculation" || patternType = "myotonic" ||
    patternType = "crd"

/-- A concrete host-sine sample used to instantiate witnesses: the constant
zero function satisfies every property of `x ↦ sin (π x)` the theorems
assume (it is bounded by 1 in absolute value). -/
def msinZero : ℚ → ℚ := fun _ => 0

/-- A concrete host-exp sample for witnesses: the constant zero function
lies in `[0, 1]` on nonpositive arguments, as the real exponential does. -/
def mexpZero : ℚ → ℚ := fun _ => 0

/-- A concrete random stream for witnesses and counterexamples: constantly
`0`, a value `Math.random()` can return (its range is `[0, 1)`). -/
def randZero : ℕ → ℚ := fun _ => 0

/-- A concrete random stream whose draws are all `1/2`, an interior value of
`Math.random()`'s range `[0, 1)`. -/
def randHalf : ℕ → ℚ := fun _ => 1/2

/-- A concrete host-sine sample for the C1 counterexample.  In the
counterexample the generator evaluates the sine only at `-1`, `-3/2` and
`-2` (times π), where the real sine is `sin (-π) = 0`,
`sin (-(3/2)·π) = 1` and `sin (-2π) = 0`; this function returns exactly
those values there. -/
def msinCex : ℚ → ℚ := fun u => if u = -(3/2) then 1 else 0

/-- The Myotonic sample formula in the words of the spec (§4.1 Myotonic):
instantaneous frequency linearly decreasing from 150 Hz at `t = 0` to 20 Hz
at `t = totalDuration`; an amplitude envelope that rises linearly 0→1 over
the first 30% of the duration, holds 1 for the middle 40%, and falls
linearly 1→0 over the final 30%; instantaneous sample
`envelope × A × sin(2π·f(t)·t/1000)` with `A = 200`
(`msin u` stands for `sin (π·u)`). -/
def myotonicSpecSample (msin : ℚ → ℚ) (t totalDuration : ℚ) : ℚ :=
  let fInst := 150 + (20 - 150) * (t / totalDuration)
  let envelope :=
    if t < 0.3 * totalDuration then t / (0.3 * totalDuration)
    else if t < 0.7 * totalDuration then 1
    else (totalDuration - t) / (0.3 * totalDuration)
  envelope * (200 * msin (2 * fInst * t / 1000))

/-! ## Continuous playback scheduler (`src/utils/audioSynthesis.js`)

`playContinuousPattern(patternType, duration, volume)` (lines 799–858 of
`audioSynthesis.js`) closes over a liveness flag `isPlaying` and an array
`timeoutIds` of pending timer ids.  Its inner `playPattern` callback checks
the flag, fires one audible event via the per-pattern `play…` function
(each of which begins by constructing the lazily-created `AudioContext`),
and re-schedules itself; unrecognized pattern types hit no `switch` case and
neither play nor re-schedule.  The returned handle's `stop()` clears the
flag and every pending timer.  The model below embeds this as a state
machine: `avail` says whether `new AudioContext()` succeeds (it throws when
the host exposes no constructor), and exceptions are `Except.error`. -/

/-- The two kinds of callback `playContinuousPattern` ever schedules. -/
inductive Callback where
  | playPattern
  | autoStop
deriving DecidableEq

/-- State owned by one `playContinuousPattern` invocation: the `isPlaying`
liveness flag, the pending (not yet fired, not yet cleared) timers with
their ids, the next fresh timer id, and a spy count of audio events
actually fired. -/
structure SchedState where
  isPlaying : Bool
  pending : List (ℕ × Callback)
  nextId : ℕ
  played : ℕ
deriving DecidableEq

/-- The error raised when `getAudioContext` cannot construct an
`AudioContext` (e.g. `window.AudioContext` is undefined). -/
inductive AudioError where
  | audioContextUnavailable
deriving DecidableEq

/-- Body of the `playPattern` closure: return silently if the liveness flag
is down; otherwise, for a recognized pattern type, fire one audible event
(which first demands a usable audio context) and re-schedule itself; for an
unrecognized pattern type, do nothing (no `switch` case matches). -/
def playPatternBody (avail : Bool) (patternType : String)
    (s : SchedState) : Except AudioError SchedState :=
  if s.isPlaying = false then .ok s
  else if handledPatternType patternType then
    if avail then
      .ok { s with played := s.played + 1,
                   pending := s.pending ++ [(s.nextId, .playPattern)],
                   nextId := s.nextId + 1 }
    else .error .audioContextUnavailable
  else .ok s

/-- Body of the auto-stop deadline timer: clear the liveness flag and every
pending timer. -/
def autoStopBody (s : SchedState) : SchedState :=
  { s with isPlaying := false, pending := [] }

/-- The returned handle's `stop()`: identical to the auto-stop body. -/
def stopHandle (s : SchedState) : SchedState :=
  { s with isPlaying := false, pending := [] }

/-- `playContinuousPattern(patternType, duration, volume)`: run `playPattern`
once synchronously (its exception, if any, propagates to the caller before
any handle is returned), then, when the requested duration is positive,
schedule the single auto-stop deadline timer. -/
def startPatternModel (avail : Bool) (patternType : String)
    (durationS : ℚ) : Except AudioError SchedState :=
  match playPatternBody avail patternType ⟨true, [], 0, 0⟩ with
  | .error e => .error e
  | .ok s1 =>
    if 0 < durationS then
      .ok { s1 with pending := s1.pending ++ [(s1.nextId, .autoStop)],
                    nextId := s1.nextId + 1 }
    else
      .ok s1

/-- One event-loop step against a handle's state.  `fire i` runs the timer
with id `i` if it is still pending (a cleared timer's callback never runs);
`stale cb` runs a callback of kind `cb` unconditionally, modelling a timer
task that was already dequeued by the event loop at the moment `stop()`
cleared the timer list. -/
inductive Step where
  | fire (i : ℕ)
  | stale (cb : Callback)

/-- Execute one step. -/
def runStep (avail : Bool) (patternType : String) (st : Step)
    (s : SchedState) : Except AudioError SchedState :=
  match st with
  | .fire i =>
    match s.pending.lookup i with
    | none => .ok s
    | some Callback.playPattern =>
        playPatternBody avail patternType
          { s with pending := s.pending.filter (fun p => p.1 != i) }
    | some Callback.autoStop =>
        .ok (autoStopBody { s with pending := s.pending.filter (fun p => p.1 != i) })
  | .stale cb =>
    match cb with
    | Callback.playPattern => playPatternBody avail patternType s
    | Callback.autoStop => .ok (autoStopBody s)

/-- Execute a sequence of event-loop steps. -/
def runSteps (avail : Bool) (patternType : String) (l : List Step)
    (s : SchedState) : Except AudioError SchedState :=
  match l with
  | [] => .ok s
  | st :: rest =>
    match runStep avail patternType st s with
    | .error e => .error e
    | .ok s2 => runSteps avail patternType rest s2

/-- A stopped handle (liveness flag down, no pending timers) is untouched by
any single event-loop step, including a stale callback. -/
lemma runStep_stopped (avail : Bool) (patternType : String) (st : Step)
    (s : SchedState) (h1 : s.isPlaying = false) (h2 : s.pending = []) :
    runStep avail patternType st s = .ok s := by
  cases st with
  | fire i =>
      simp [runStep, h2]
  | stale cb =>
      cases cb with
      | playPattern => simp [runStep, playPatternBody, h1]
      | autoStop =>
          cases s with
          | mk ip pe ni pl =>
              simp only at h1 h2
              subst h1; subst h2
              simp [runStep, autoStopBody]

/-- A stopped handle is untouched by any sequence of event-loop steps. -/
lemma runSteps_stopped (avail : Bool) (patternType : String)
    (steps : List Step) (s : SchedState) (h1 : s.isPlaying = false)
    (h2 : s.pending = []) :
    runSteps avail patternType steps s = .ok s := by
  induction steps with
  | nil => rfl
  | cons st rest ih =>
      simp [runSteps, runStep_stopped avail patternType st s h1 h2, ih]

/-- Computation of `startPatternModel` when audio is available and the
pattern type is one of the five handled ones. -/
lemma startPatternModel_handled (patternType : String) (dur : ℚ)
    (hpt : handledPatternType patternType = true) :
    startPatternModel true patternType dur =
      if 0 < dur then
        .ok ⟨true, [(0, Callback.playPattern), (1, Callback.autoStop)], 2, 1⟩
      else
        .ok ⟨true, [(0, Callback.playPattern)], 1, 1⟩ := by
  simp [startPatternModel, playPatternBody, hpt]

/-- Claim C3, as stated, is false: with no usable audio output, calling
`playContinuousPattern` with the handled pattern type `"normal"` propagates
the audio-context construction exception to its caller instead of returning
a handle whose `stop()` is a no-op. -/
theorem c3_counterexample :
    startPatternModel false "normal" 5 =
      Except.error AudioError.audioContextUnavailable := by
  simp [startPatternModel, playPatternBody, handledPatternType]

/-- Claim C3 (amended): when the host has no usable audio output,
`startPattern` (`playContinuousPattern`) with any of the five handled
pattern types throws the audio-context construction error across the UI
boundary and returns no handle; only with an unhandled pattern type does it
return a handle, having produced no sound (its `switch` touches no audio). -/
theorem c3_amended (patternType : String) (dur : ℚ) :
    (handledPatternType patternType = true →
      startPatternModel false patternType dur =
        Except.error AudioError.audioContextUnavailable) ∧
    (handledPatternType patternType = false →
      ∃ s : SchedState, startPatternModel false patternType dur = Except.ok s ∧
        s.played = 0 ∧ s.isPlaying = true) := by
  constructor
  · intro hpt
    simp [startPatternModel, playPatternBody, hpt]
  · intro hpt
    by_cases hdur : 0 < dur
    · refine ⟨⟨true, [(0, Callback.autoStop)], 1, 0⟩, ?_, rfl, rfl⟩
      simp [startPatternModel, playPatternBody, hpt, hdur]
    · refine ⟨⟨true, [], 0, 0⟩, ?_, rfl, rfl⟩
      simp [startPatternModel, playPatternBody, hpt, hdur]

/-- Witness for `c3_amended`, at the handled pattern `"normal"` and the
unhandled pattern `"psw"`, both with a 5-second auto-stop. -/
theorem c3_amended_witness :
    (startPatternModel false "normal" 5 =
      Except.error AudioError.audioContextUnavailable) ∧
    (∃ s : SchedState, startPatternModel false "psw" 5 = Except.ok s ∧
      s.played = 0 ∧ s.isPlaying = true) :=
  ⟨(c3_amended "normal" 5).1 (by decide),
   (c3_amended "psw" 5).2 (by decide)⟩

/-- Claim C4: after `stop()` returns, no further audio events from that
handle fire: the stopped state is invariant under every sequence of
event-loop steps — timers that are still pending were cleared and never
run, and a callback already dequeued at the moment of cancellation
(`Step.stale`) finds the liveness flag down and neither plays nor
re-schedules.  In particular, `startPattern` followed immediately by
`stop()` has played exactly the single initial audio event, and the play
count never increases afterwards. -/
theorem c4_stop_is_final (patternType : String) (dur : ℚ) (s : SchedState)
    (h : startPatternModel true patternType dur = Except.ok s) :
    (∀ (avail : Bool) (steps : List Step),
        runSteps avail patternType steps (stopHandle s) =
          Except.ok (stopHandle s)) ∧
    (handledPatternType patternType = true →
      s.played = 1 ∧ (stopHandle s).played = 1) := by
  constructor
  · intro avail steps
    exact runSteps_stopped avail patternType steps (stopHandle s) rfl rfl
  · intro hpt
    rw [startPatternModel_handled patternType dur hpt] at h
    by_cases hdur : 0 < dur
    · rw [if_pos hdur] at h
      cases h
      exact ⟨rfl, rfl⟩
    · rw [if_neg hdur] at h
      cases h
      exact ⟨rfl, rfl⟩

/-- Witness for `c4_stop_is_final`: pattern `"normal"`, 5-second auto-stop;
after `stop()`, firing the pending initial re-schedule timer, a stale
in-flight callback, and the auto-stop timer all leave the stopped state
unchanged, and exactly one audio event was ever played. -/
theorem c4_stop_is_final_witness :
    (runSteps true "normal"
        [Step.fire 0, Step.stale Callback.playPattern, Step.fire 1]
        (stopHandle ⟨true, [(0, Callback.playPattern), (1, Callback.autoStop)], 2, 1⟩) =
      Except.ok (stopHandle ⟨true, [(0, Callback.playPattern), (1, Callback.autoStop)], 2, 1⟩)) ∧
    SchedState.played
      (stopHandle ⟨true, [(0, Callback.playPattern), (1, Callback.autoStop)], 2, 1⟩) = 1 := by
  have h := c4_stop_is_final "normal" 5
    ⟨true, [(0, Callback.playPattern), (1, Callback.autoStop)], 2, 1⟩
    (by rw [startPatternModel_handled "normal" 5 (by decide)]; norm_num)
  exact ⟨h.1 true [Step.fire 0, Step.stale Callback.playPattern, Step.fire 1],
         (h.2 (by decide)).2⟩

/-- Claim C1, as stated, is false for the Complex Repetitive Discharge
generator: at time `-15/2` ms — outside `[0, d]` for every nonnegative
event duration `d` — it returns `90` µV, not `0`.  (The JavaScript
remainder of a negative time is negative, so the `timeInPeriod >
spikeDuration` early-out does not fire and the spike formula is applied.) -/
theorem c1_counterexample :
    ((-(15/2) : ℚ) < 0) ∧
    generateComplexRepetitiveDischarge msinCex (-(15/2)) 40 = 90 ∧
    (90 : ℚ) ≠ 0 := by
  refine ⟨by norm_num, ?_, by norm_num⟩
  have hq : (-(15/2) : ℚ) / (1000 / 40) = -(3/10) := by norm_num
  have hc : (⌈(-(3/10) : ℚ)⌉ : ℤ) = 0 := by
    rw [Int.ceil_eq_zero_iff]
    constructor <;> norm_num
  have hmod : jsMod (-(15/2)) (1000 / 40) = -(15/2) := by
    simp only [jsMod, hq]
    rw [if_pos (by norm_num), hc]
    norm_num
  simp only [generateComplexRepetitiveDischarge, hmod]
  rw [if_neg (by norm_num)]
  have h1 : (-(15/2) : ℚ) / 15 * 2 = -1 := by norm_num
  have h2 : (-(15/2) : ℚ) / 15 * 3 = -(3/2) := by norm_num
  have h3 : (-(15/2) : ℚ) / 15 * 4 = -2 := by norm_num
  rw [h1, h2, h3]
  norm_num [msinCex]

/-- Claim C1 (amended): the five single-event generators — Normal,
Fibrillation, Fasciculation, Myotonic (with caller-supplied total duration)
and Positive Sharp Wave — return amplitude 0 at every real time outside
`[0, duration]`, and all generators are total functions; the Complex
Repetitive Discharge generator is the exception: it is periodic and applies
its spike formula whenever the JavaScript remainder `t % period` is at most
the 15 ms spike window, which happens at arbitrarily large and at negative
times (see `c1_counterexample`). -/
theorem c1_amended (msin mexp : ℚ → ℚ) (t D : ℚ) :
    (t < 0 ∨ t > 12 → generateNormalMUAP msin t = 0) ∧
    (t < 0 ∨ t > 2 → generateFibrillation msin t = 0) ∧
    (t < 0 ∨ t > 12 → generateFasciculation msin t = 0) ∧
    (t < 0 ∨ t > D → generateMyotonicDischarge msin t D = 0) ∧
    (t < 0 ∨ t > 20 → generatePositiveSharpWave mexp t = 0) := by
  refine ⟨?_, ?_, ?_, ?_, ?_⟩
  · intro h
    simp only [generateNormalMUAP]
    rw [if_pos h]
  · intro h
    simp only [generateFibrillation]
    rw [if_pos h]
  · intro h
    simp only [generateFasciculation, generateNormalMUAP]
    rw [if_pos h]
  · intro h
    simp only [generateMyotonicDischarge]
    rw [if_pos h]
  · intro h
    simp only [generatePositiveSharpWave]
    rw [if_pos h]

/-- Witness for `c1_amended`: every single-event generator is silent at
time `-1` ms. -/
theorem c1_amended_witness :
    generateNormalMUAP msinZero (-1) = 0 ∧
    generateFibrillation msinZero (-1) = 0 ∧
    generateFasciculation msinZero (-1) = 0 ∧
    generateMyotonicDischarge msinZero (-1) 500 = 0 ∧
    generatePositiveSharpWave mexpZero (-1) = 0 :=
  ⟨(c1_amended msinZero mexpZero (-1) 500).1 (Or.inl (by norm_num)),
   (c1_amended msinZero mexpZero (-1) 500).2.1 (Or.inl (by norm_num)),
   (c1_amended msinZero mexpZero (-1) 500).2.2.1 (Or.inl (by norm_num)),
   (c1_amended msinZero mexpZero (-1) 500).2.2.2.1 (Or.inl (by norm_num)),
   (c1_amended msinZero mexpZero (-1) 500).2.2.2.2 (Or.inl (by norm_num))⟩

/-- Claim C8: for every time input, the Fasciculation generator returns
exactly the amplitude of the Normal MUAP generator — in the source it
simply delegates to it; the two patterns differ only in their timing
model. -/
theorem c8_fasciculation_eq_normal (msin : ℚ → ℚ) (t : ℚ) :
    generateFasciculation msin t = generateNormalMUAP msin t := rfl

/-- Claim C7: for every `t` in `[0, totalDuration]` (with positive
`totalDuration`), the Myotonic generator computes exactly the spec's
formula: envelope × 200 × sin(2π·f(t)·t/1000) with `f` decreasing linearly
150 Hz → 20 Hz over the duration and the 30% / 40% / 30% rise–hold–fall
envelope. -/
theorem c7_myotonic_matches_spec (msin : ℚ → ℚ) (t D : ℚ)
    (hD : 0 < D) (h0 : 0 ≤ t) (h1 : t ≤ D) :
    generateMyotonicDischarge msin t D = myotonicSpecSample msin t D := by
  have hne : D ≠ 0 := ne_of_gt hD
  simp only [generateMyotonicDischarge, myotonicSpecSample]
  rw [if_neg (by push_neg; exact ⟨h0, h1⟩)]
  have harg : 2 * (150 - (150 - 20) * (t / D)) * t / 1000 =
      2 * (150 + (20 - 150) * (t / D)) * t / 1000 := by ring
  rw [harg]
  by_cases hc1 : t / D < 0.3
  · rw [if_pos hc1, if_pos (by rwa [div_lt_iff₀ hD] at hc1)]
    have henv : t / D / 0.3 = t / (0.3 * D) := by
      rw [div_div, mul_comm]
    rw [henv]; ring
  · have hc1' : ¬ t < 0.3 * D := by rwa [div_lt_iff₀ hD] at hc1
    rw [if_neg hc1, if_neg hc1']
    by_cases hc2 : t / D < 0.7
    · rw [if_pos hc2, if_pos (by rwa [div_lt_iff₀ hD] at hc2)]
      norm_num
    · have hc2' : ¬ t < 0.7 * D := by rwa [div_lt_iff₀ hD] at hc2
      rw [if_neg hc2, if_neg hc2']
      have h10 : (1.0 : ℚ) - t / D = (D - t) / D := by
        rw [show (1.0 : ℚ) = 1 by norm_num]
        field_simp
      rw [h10, div_div, mul_comm D (0.3 : ℚ)]; ring

/-- Witness for `c7_myotonic_matches_spec` at `t = 100`, `D = 500`. -/
theorem c7_myotonic_matches_spec_witness :
    generateMyotonicDischarge msinZero 100 500 =
      myotonicSpecSample msinZero 100 500 :=
  c7_myotonic_matches_spec msinZero 100 500 (by norm_num) (by norm_num)
    (by norm_num)

/-- `|c * m| ≤ b` when `|m| ≤ 1` and `|c| ≤ b`. -/
lemma abs_const_mul_le (c m b : ℚ) (hm : |m| ≤ 1) (hcb : |c| ≤ b) :
    |c * m| ≤ b := by
  rw [abs_mul]
  have h := mul_le_mul_of_nonneg_left hm (abs_nonneg c)
  simp only [mul_one] at h
  linarith

/-- `|A * env * m| ≤ b` when the envelope lies in `[0, 1]`, `|m| ≤ 1`,
`0 ≤ A` and `A ≤ b`. -/
lemma abs_env_mul_le (A env m b : ℚ) (hA : 0 ≤ A) (h0 : 0 ≤ env)
    (h1 : env ≤ 1) (hm : |m| ≤ 1) (hAb : A ≤ b) : |A * env * m| ≤ b := by
  have h2 : |A * env * m| = A * env * |m| := by
    rw [abs_mul, abs_of_nonneg (mul_nonneg hA h0)]
  rw [h2]
  have h3 : A * env * |m| ≤ A * env * 1 :=
    mul_le_mul_of_nonneg_left hm (mul_nonneg hA h0)
  have h4 : A * env ≤ A * 1 := mul_le_mul_of_nonneg_left h1 hA
  nlinarith

/-- Claim C9: each single-event generator's output is bounded in absolute
value by the pattern's peak amplitude constant (µV): 800 for Normal, 150
for Fibrillation, 200 for Myotonic (any positive total duration), 300 for
the Complex Repetitive Discharge (default 40 Hz burst frequency), 400 for
the Positive Sharp Wave — for every real time input.  The hypotheses state
the properties of the host math library the bound rests on: `|sin| ≤ 1`
and `exp x ∈ (0, 1]` for `x ≤ 0`. -/
theorem c9_peak_amplitude_bounds (msin mexp : ℚ → ℚ)
    (hsin : ∀ x : ℚ, |msin x| ≤ 1)
    (hexp : ∀ x : ℚ, x ≤ 0 → 0 ≤ mexp x ∧ mexp x ≤ 1)
    (t D : ℚ) (hD : 0 < D) :
    |generateNormalMUAP msin t| ≤ 800 ∧
    |generateFibrillation msin t| ≤ 150 ∧
    |generateMyotonicDischarge msin t D| ≤ 200 ∧
    |generateComplexRepetitiveDischarge msin t 40| ≤ 300 ∧
    |generatePositiveSharpWave mexp t| ≤ 400 := by
  refine ⟨?_, ?_, ?_, ?_, ?_⟩
  · simp only [generateNormalMUAP]
    split_ifs with hg h1 h2
    · norm_num
    · exact abs_const_mul_le _ _ _ (hsin _) (by norm_num)
    · exact abs_const_mul_le _ _ _ (hsin _) (by norm_num)
    · exact abs_const_mul_le _ _ _ (hsin _) (by norm_num)
  · simp only [generateFibrillation]
    split_ifs with hg h1
    · norm_num
    · exact abs_const_mul_le _ _ _ (hsin _) (by norm_num)
    · exact abs_const_mul_le _ _ _ (hsin _) (by norm_num)
  · simp only [generateMyotonicDischarge]
    split_ifs with hg h3 h7
    · norm_num
    · push_neg at hg
      have h0 : 0 ≤ t / D := div_nonneg hg.1 hD.le
      refine abs_env_mul_le _ _ _ _ (by norm_num)
        (div_nonneg h0 (by norm_num)) ?_ (hsin _) (by norm_num)
      rw [div_le_one (by norm_num : (0 : ℚ) < 0.3)]
      linarith
    · exact abs_env_mul_le _ _ _ _ (by norm_num) (by norm_num) (by norm_num)
        (hsin _) (by norm_num)
    · push_neg at hg
      have hup : t / D ≤ 1 := (div_le_one hD).mpr hg.2
      refine abs_env_mul_le _ _ _ _ (by norm_num) ?_ ?_ (hsin _) (by norm_num)
      · have : (0 : ℚ) ≤ 1.0 - t / D := by norm_num; linarith
        positivity
      · push_neg at h7
        have : (0.7 : ℚ) ≤ t / D := h7
        rw [div_le_one (by norm_num : (0 : ℚ) < 0.3)]
        norm_num
        linarith
  · simp only [generateComplexRepetitiveDischarge]
    split_ifs with hg
    · norm_num
    · obtain ⟨ha1, ha2⟩ := abs_le.mp (hsin (jsMod t (1000 / 40) / 15 * 2))
      obtain ⟨hb1, hb2⟩ := abs_le.mp (hsin (jsMod t (1000 / 40) / 15 * 3))
      obtain ⟨hc1, hc2⟩ := abs_le.mp (hsin (jsMod t (1000 / 40) / 15 * 4))
      rw [abs_le]
      constructor <;> nlinarith
  · simp only [generatePositiveSharpWave]
    split_ifs with hg h2
    · norm_num
    · push_neg at hg
      have he : (400 : ℚ) * (t / 20 / 0.2) = 100 * t := by ring
      rw [he, abs_le]
      have h4 : t < 4 := by
        have := h2
        rw [div_lt_iff₀ (by norm_num : (0 : ℚ) < 20)] at this
        · linarith [this]
      constructor <;> linarith [hg.1]
    · push_neg at hg h2
      have harg : (-(t / 20 - 0.2) * 5 : ℚ) ≤ 0 := by
        have h02 : (0.2 : ℚ) ≤ t / 20 := h2
        linarith
      obtain ⟨he0, he1⟩ := hexp _ harg
      rw [abs_le]
      constructor <;> nlinarith

/-- Witness for `c9_peak_amplitude_bounds`: the constant-zero host sine and
exponential satisfy the hypotheses, at `t = 1`, `D = 500`. -/
theorem c9_peak_amplitude_bounds_witness :
    |generateNormalMUAP msinZero 1| ≤ 800 ∧
    |generateFibrillation msinZero 1| ≤ 150 ∧
    |generateMyotonicDischarge msinZero 1 500| ≤ 200 ∧
    |generateComplexRepetitiveDischarge msinZero 1 40| ≤ 300 ∧
    |generatePositiveSharpWave mexpZero 1| ≤ 400 :=
  c9_peak_amplitude_bounds msinZero mexpZero
    (fun _ => by norm_num [msinZero])
    (fun _ _ => by norm_num [mexpZero])
    1 500 (by norm_num)

/-- A fold whose step preserves list length preserves list length. -/
lemma foldl_preserves_length {α : Type} (f : List ℚ → α → List ℚ)
    (hf : ∀ d a, (f d a).length = d.length) :
    ∀ (l : List α) (d : List ℚ), (l.foldl f d).length = d.length := by
  intro l
  induction l with
  | nil => intro d; rfl
  | cons a l ih => intro d; rw [List.foldl_cons, ih, hf]

/-- Overlaying one event into the buffer never changes its length. -/
lemma overlayEvent_length (g : ℚ → ℚ) (ed r : ℚ) (i n : ℕ)
    (data : List ℚ) : (overlayEvent g ed r i n data).length = data.length := by
  apply foldl_preserves_length
  intro d j
  split
  · exact List.length_set d _ _
  · rfl

/-- Every stochastic branch of `generateEMGPattern` preserves the
zero-initialized buffer's length `n`. -/
lemma stochasticBranch_length (rand : ℕ → ℚ) (p : ℚ) (g : ℚ → ℚ)
    (ed r : ℚ) (n : ℕ) :
    ((List.range n).foldl
      (fun d i => if rand i < p then overlayEvent g ed r i n d else d)
      (List.replicate n (0 : ℚ))).length = n := by
  rw [foldl_preserves_length]
  · exact List.length_replicate n 0
  · intro d a
    split
    · exact overlayEvent_length g ed r a n d
    · rfl

/-- Claim C5, as stated, is false: the buffer length is the *floor* of
`totalDurationMs × sampleRatePerMs`, not the exact product — at
`durationMs = 3/2`, `sampleRate = 1` the product is `3/2` but the buffer
has 1 sample. -/
theorem c5_counterexample :
    (generateEMGPattern randZero msinZero mexpZero "myotonic" (3/2) 1).map
        (fun l => (l.length : ℚ)) = some 1 ∧
    (1 : ℚ) ≠ 3/2 * 1 := by
  constructor
  · have hf : (⌊(3/2 : ℚ) * 1⌋ : ℤ) = 1 := by
      rw [Int.floor_eq_iff] <;> norm_num
    simp only [generateEMGPattern]
    rw [hf]
    norm_num
    simp
  · norm_num

/-- Claim C5 (amended): for every pattern type and all real duration and
sample-rate arguments on which `generatePattern` returns a buffer, the
buffer's length is exactly `⌊totalDurationMs × sampleRatePerMs⌋` — equal
to the product whenever that product is an integer, as in the spec's
example `generatePattern(Myotonic, 500, 10)`, whose buffer has exactly
5000 samples. -/
theorem c5_amended (rand : ℕ → ℚ) (msin mexp : ℚ → ℚ)
    (patternType : String) (durationMs sampleRate : ℚ) (b : List ℚ)
    (h : generateEMGPattern rand msin mexp patternType durationMs sampleRate
          = some b) :
    (b.length : ℤ) = ⌊durationMs * sampleRate⌋ := by
  unfold generateEMGPattern at h
  by_cases hneg : (⌊durationMs * sampleRate⌋ : ℤ) < 0
  · rw [if_pos hneg] at h
    exact absurd h (by simp)
  · rw [if_neg hneg] at h
    push_neg at hneg
    have hlen : b.length = (⌊durationMs * sampleRate⌋ : ℤ).toNat := by
      split_ifs at h
      all_goals rw [Option.some_inj] at h
      all_goals subst h
      · exact stochasticBranch_length rand _ (generateNormalMUAP msin) _ _ _
      · exact stochasticBranch_length rand _ (generateFibrillation msin) _ _ _
      · exact stochasticBranch_length rand _ (generateFasciculation msin) _ _ _
      · simp only [List.length_map, List.length_range]
      · simp only [List.length_map, List.length_range]
      · simp only [List.length_map, List.length_range]
    rw [hlen, Int.toNat_of_nonneg hneg]

/-- The Myotonic buffer at the spec's example arguments. -/
lemma myotonic_gen_eq (rand : ℕ → ℚ) (msin mexp : ℚ → ℚ) :
    generateEMGPattern rand msin mexp "myotonic" 500 10 =
      some ((List.range 5000).map
        (fun (i : ℕ) => generateMyotonicDischarge msin ((i : ℚ) / 10) 500)) := by
  have hf : (⌊(500 : ℚ) * 10⌋ : ℤ) = 5000 := by
    rw [show ((500 : ℚ) * 10) = ((5000 : ℤ) : ℚ) by norm_num, Int.floor_intCast]
  simp [generateEMGPattern, hf]

/-- Witness for `c5_amended` at the spec's example
`generatePattern(Myotonic, 500, 10)`: the buffer length is
`⌊500 × 10⌋ = 5000`. -/
theorem c5_amended_witness :
    ((((List.range 5000).map
        (fun (i : ℕ) => generateMyotonicDischarge msinZero ((i : ℚ) / 10) 500)).length : ℤ)
      = ⌊(500 : ℚ) * 10⌋) ∧
    (⌊(500 : ℚ) * 10⌋ : ℤ) = 5000 :=
  ⟨c5_amended randZero msinZero mexpZero "myotonic" 500 10 _
      (myotonic_gen_eq randZero msinZero mexpZero),
   by rw [show ((500 : ℚ) * 10) = ((5000 : ℤ) : ℚ) by norm_num, Int.floor_intCast]⟩

/-- Claim C2, as stated, is false for negative durations: a negative
requested duration makes `numSamples = ⌊durationMs·sampleRate⌋` negative,
and `new Float32Array(numSamples)` throws a `RangeError` instead of
returning an empty buffer. -/
theorem c2_counterexample :
    generateEMGPattern randZero msinZero mexpZero "myotonic" (-1) 10 = none := by
  have hf : (⌊((-1 : ℚ) * 10)⌋ : ℤ) = -10 := by
    rw [show ((-1 : ℚ) * 10) = ((-10 : ℤ) : ℚ) by norm_num, Int.floor_intCast]
  simp only [generateEMGPattern, hf]
  norm_num

/-- Claim C2 (amended): for every pattern type and sample rate, a *zero*
requested duration yields an empty buffer; a *negative* requested duration
(with positive sample rate) makes the typed-array allocation throw rather
than return a buffer. -/
theorem c2_amended (rand : ℕ → ℚ) (msin mexp : ℚ → ℚ)
    (patternType : String) (sampleRate : ℚ) :
    (generateEMGPattern rand msin mexp patternType 0 sampleRate = some []) ∧
    (∀ durationMs : ℚ, durationMs < 0 → 0 < sampleRate →
      generateEMGPattern rand msin mexp patternType durationMs sampleRate
        = none) := by
  constructor
  · simp only [generateEMGPattern, zero_mul, Int.floor_zero]
    norm_num
  · intro durationMs hd hr
    have hprod : durationMs * sampleRate < 0 := mul_neg_of_neg_of_pos hd hr
    have hf : (⌊durationMs * sampleRate⌋ : ℤ) < 0 := by
      rw [Int.floor_lt]
      exact_mod_cast hprod
    simp only [generateEMGPattern]
    rw [if_pos hf]

/-- Witness for `c2_amended`: pattern `"crd"`, sample rate 10; duration 0
returns the empty buffer, duration `-1` throws. -/
theorem c2_amended_witness :
    (generateEMGPattern randZero msinZero mexpZero "crd" 0 10 = some []) ∧
    (generateEMGPattern randZero msinZero mexpZero "crd" (-1) 10 = none) :=
  ⟨(c2_amended randZero msinZero mexpZero "crd" 10).1,
   (c2_amended randZero msinZero mexpZero "crd" 10).2 (-1) (by norm_num)
     (by norm_num)⟩

/-- Indexing a mapped range. -/
lemma getD_range_map (f : ℕ → ℚ) (n i : ℕ) (h : i < n) :
    ((List.range n).map f).getD i 0 = f i := by
  rw [List.getD_eq_getElem _ _ (by simpa using h)]
  simp

/-- The `"crd"` branch of `generateEMGPattern` at the claim's arguments:
10000 samples of the CRD generator at 10 samples per ms. -/
lemma crd_gen_eq (rand : ℕ → ℚ) (msin mexp : ℚ → ℚ) :
    generateEMGPattern rand msin mexp "crd" 1000 10 =
      some ((List.range 10000).map
        (fun (i : ℕ) => generateComplexRepetitiveDischarge msin ((i : ℚ) / 10) 40)) := by
  have hf : (⌊(1000 : ℚ) * 10⌋ : ℤ) = 10000 := by
    rw [show ((1000 : ℚ) * 10) = ((10000 : ℤ) : ℚ) by norm_num, Int.floor_intCast]
  simp [generateEMGPattern, hf]

/-- JavaScript remainder of a sample time `(250k + j)/10` ms (with
`j < 250`) by the 25 ms burst period: the time within the period is
`j/10` ms. -/
lemma jsMod_crd (k j : ℕ) (hj : j < 250) :
    jsMod ((250 * (k : ℚ) + (j : ℚ)) / 10) 25 = (j : ℚ) / 10 := by
  have hq : ((250 * (k : ℚ) + (j : ℚ)) / 10) / 25 = (k : ℚ) + (j : ℚ) / 250 := by
    ring
  have hnonneg : ¬ (((250 * (k : ℚ) + (j : ℚ)) / 10) / 25 < 0) := by
    push_neg
    positivity
  have hfloor : ⌊(k : ℚ) + (j : ℚ) / 250⌋ = (k : ℤ) := by
    rw [add_comm, Int.floor_add_nat]
    have hz : ⌊(j : ℚ) / 250⌋ = 0 := by
      rw [Int.floor_eq_zero_iff, Set.mem_Ico]
      constructor
      · positivity
      · rw [div_lt_one (by norm_num)]
        exact_mod_cast hj
    rw [hz, zero_add]
  simp only [jsMod]
  rw [if_neg hnonneg, hq, hfloor]
  push_cast
  ring

/-- Claim C6: in the buffer `generatePattern(ComplexRepetitiveDischarge,
1000, 10)` (burst frequency 40 Hz, hence 40 periods of 25 ms at 250
samples each), every period consists of the 15 ms spike window — where the
sample is `300 × (0.5·sin(2πu) + 0.3·sin(3πu) + 0.2·sin(4πu))` with `u`
the normalized position in the window — followed by 10 ms of zeros. -/
theorem c6_crd_periodicity (rand : ℕ → ℚ) (msin mexp : ℚ → ℚ) (b : List ℚ)
    (h : generateEMGPattern rand msin mexp "crd" 1000 10 = some b) :
    b.length = 10000 ∧
    ∀ k j : ℕ, k < 40 → j < 250 →
      ((j ≤ 150 →
          b.getD (250 * k + j) 0 =
            300 * (0.5 * msin (2 * ((j : ℚ) / 150)) +
              0.3 * msin (3 * ((j : ℚ) / 150)) +
              0.2 * msin (4 * ((j : ℚ) / 150)))) ∧
       (150 < j → b.getD (250 * k + j) 0 = 0)) := by
  rw [crd_gen_eq rand msin mexp, Option.some_inj] at h
  subst h
  constructor
  · simp
  · intro k j hk hj
    have hidx : 250 * k + j < 10000 := by omega
    have hbase : ((List.range 10000).map
        (fun (i : ℕ) => generateComplexRepetitiveDischarge msin ((i : ℚ) / 10) 40)).getD
          (250 * k + j) 0 =
        generateComplexRepetitiveDischarge msin (((250 * k + j : ℕ) : ℚ) / 10) 40 :=
      getD_range_map _ _ _ hidx
    have hcast : (((250 * k + j : ℕ) : ℚ)) = 250 * (k : ℚ) + (j : ℚ) := by
      push_cast
      ring
    have hmod : jsMod ((250 * (k : ℚ) + (j : ℚ)) / 10) (1000 / 40) = (j : ℚ) / 10 := by
      rw [show ((1000 : ℚ) / 40) = 25 by norm_num]
      exact jsMod_crd k j hj
    constructor
    · intro hj150
      rw [hbase]
      simp only [generateComplexRepetitiveDischarge, hcast, hmod]
      rw [if_neg (by
        rw [gt_iff_lt, not_lt, div_le_iff₀ (by norm_num : (0 : ℚ) < 10)]
        rw [show (15 : ℚ) * 10 = 150 by norm_num]
        exact_mod_cast hj150)]
      have e1 : (j : ℚ) / 10 / 15 * 2 = 2 * ((j : ℚ) / 150) := by ring
      have e2 : (j : ℚ) / 10 / 15 * 3 = 3 * ((j : ℚ) / 150) := by ring
      have e3 : (j : ℚ) / 10 / 15 * 4 = 4 * ((j : ℚ) / 150) := by ring
      rw [e1, e2, e3]
      ring
    · intro hj150
      rw [hbase]
      simp only [generateComplexRepetitiveDischarge, hcast, hmod]
      rw [if_pos (by
        rw [gt_iff_lt, lt_div_iff₀ (by norm_num : (0 : ℚ) < 10)]
        exact_mod_cast by exact_mod_cast hj150)]

/-- Witness for `c6_crd_periodicity`: the concrete CRD buffer has 10000
samples, and the sample at period 1, offset 200 (inside the silent tail of
the period) is zero. -/
theorem c6_crd_periodicity_witness :
    (((List.range 10000).map
        (fun (i : ℕ) => generateComplexRepetitiveDischarge msinZero ((i : ℚ) / 10) 40)).length
      = 10000) ∧
    ((List.range 10000).map
        (fun (i : ℕ) => generateComplexRepetitiveDischarge msinZero ((i : ℚ) / 10) 40)).getD
      (250 * 1 + 200) 0 = 0 := by
  have h := c6_crd_periodicity randZero msinZero mexpZero _
    (crd_gen_eq randZero msinZero mexpZero)
  exact ⟨h.1, ((h.2 1 200 (by norm_num) (by norm_num)).2) (by norm_num)⟩

/-- The default branch of `generateEMGPattern` at pattern type `"psw"`,
duration 1 ms, 1 sample per ms: a single baseline-noise sample. -/
lemma psw_default_gen_eq (rand : ℕ → ℚ) (msin mexp : ℚ → ℚ) :
    generateEMGPattern rand msin mexp "psw" 1 1 =
      some ((List.range 1).map (fun (i : ℕ) => (rand i - 0.5) * 10)) := by
  have hf : (⌊(1 : ℚ) * 1⌋ : ℤ) = 1 := by
    rw [show ((1 : ℚ) * 1) = ((1 : ℤ) : ℚ) by norm_num, Int.floor_intCast]
  simp [generateEMGPattern, hf]

/-- Claim C10, as stated, is false in its strict noise bound: a
`Math.random()` draw of exactly 0 — a value in its range `[0, 1)` —
produces the baseline-noise sample `(0 − 0.5) × 10 = −5`, whose absolute
value is not strictly less than 5. -/
theorem c10_counterexample :
    (generateEMGPattern randZero msinZero mexpZero "psw" 1 1).map
        (fun l => l.getD 0 0) = some (-5) ∧
    ¬ (|(-5 : ℚ)| < 5) := by
  constructor
  · rw [psw_default_gen_eq randZero msinZero mexpZero]
    norm_num [randZero]
  · norm_num

/-- Claim C10 (amended): for every pattern type outside the five handled
cases — including `"psw"`, the Positive Sharp Wave of the spec's PatternId
enumeration — `generateEMGPattern` places no pattern events and fills every
sample with baseline noise `(draw − 0.5) × 10`, which lies in `[−5, 5)`:
its absolute value is at most 5 µV (not strictly less than 5, which fails
exactly when a draw is 0). -/
theorem c10_amended (rand : ℕ → ℚ) (msin mexp : ℚ → ℚ)
    (patternType : String) (durationMs sampleRate : ℚ) (b : List ℚ)
    (hpt : handledPatternType patternType = false)
    (hrand : ∀ i : ℕ, 0 ≤ rand i ∧ rand i < 1)
    (h : generateEMGPattern rand msin mexp patternType durationMs sampleRate
          = some b) :
    ∀ k : ℕ, k < b.length →
      b.getD k 0 = (rand k - 0.5) * 10 ∧
      -5 ≤ b.getD k 0 ∧ b.getD k 0 < 5 := by
  simp only [handledPatternType, Bool.or_eq_false_iff,
    decide_eq_false_iff_not] at hpt
  obtain ⟨⟨⟨⟨h1, h2⟩, h3⟩, h4⟩, h5⟩ := hpt
  unfold generateEMGPattern at h
  by_cases hneg : (⌊durationMs * sampleRate⌋ : ℤ) < 0
  · rw [if_pos hneg] at h
    exact absurd h (by simp)
  · rw [if_neg hneg, if_neg h1, if_neg h2, if_neg h3, if_neg h4, if_neg h5,
      Option.some_inj] at h
    subst h
    intro k hk
    have hklen : k < (⌊durationMs * sampleRate⌋ : ℤ).toNat := by
      simpa using hk
    have heq : ((List.range ((⌊durationMs * sampleRate⌋ : ℤ).toNat)).map
        (fun (i : ℕ) => (rand i - 0.5) * 10)).getD k 0 = (rand k - 0.5) * 10 :=
      getD_range_map _ _ _ hklen
    refine ⟨heq, ?_, ?_⟩
    · rw [heq]
      obtain ⟨hr0, hr1⟩ := hrand k
      nlinarith
    · rw [heq]
      obtain ⟨hr0, hr1⟩ := hrand k
      nlinarith

/-- Witness for `c10_amended`: pattern type `"psw"`, all draws `1/2`; the
single sample equals the noise formula and lies within the bound. -/
theorem c10_amended_witness :
    (((List.range 1).map (fun (i : ℕ) => (randHalf i - 0.5) * 10)).getD 0 0
        = (randHalf 0 - 0.5) * 10) ∧
    -5 ≤ ((List.range 1).map (fun (i : ℕ) => (randHalf i - 0.5) * 10)).getD 0 0 ∧
    ((List.range 1).map (fun (i : ℕ) => (randHalf i - 0.5) * 10)).getD 0 0 < 5 :=
  c10_amended randHalf msinZero mexpZero "psw" 1 1 _
    (by decide)
    (fun i => by norm_num [randHalf])
    (psw_default_gen_eq randHalf msinZero mexpZero)
    0 (by simp)

